import Mathlib

/-!
Shallow embedding of `train.py` from the Deep-Fake-Detector repository.

The script has three classes:
* `DatasetHandler` — downloads a zip archive over HTTP, extracts it, and loads
  three image splits through `tf.keras.utils.image_dataset_from_directory`;
* `DeepfakeDetectorModel` — builds a fixed sequential CNN, compiles it, trains
  it with three Keras callbacks, evaluates it and saves it;
* `TrainModel` — orchestrates the above in `run_training`.

Effects are made explicit:
* the filesystem is a value of type `FS` (a set of directories plus a map from
  file paths to byte contents), threaded through every step;
* the single HTTP GET is an oracle of type `HttpOutcome`: either the connection
  layer raises (`exn`, as `requests.get` does on connection failures) or a
  response with a status code and a body arrives (`requests.get` does NOT raise
  on HTTP error statuses, and `train.py` never inspects `status_code` nor calls
  `raise_for_status`, so the body is streamed to disk whatever the status is);
* `zipfile.ZipFile(...).extractall` is parametrised by a decoder
  `List Nat → Option (List ZipEntry)` mapping the archive bytes to its entries
  (`none` models `BadZipFile`, which the script does not catch);
* the framework calls (dataset loading, `fit`, `evaluate`, `save`) are opaque:
  they are embedded as the argument records the script passes to the framework,
  and booleans `loadOk/trainOk/evalOk/saveOk` say whether the framework call
  raises (the script wraps none of them in try/except).
-/

/-- An exact rational constant of the script (e.g. the `0.5` dropout rate or the
`1e-7` learning-rate floor), kept as a numerator/denominator pair. -/
structure Frac where
  num : Nat
  den : Nat
deriving DecidableEq, Repr

/-- `os.path.join` for the simple relative components used by the script. -/
def pathJoin (a b : String) : String := a ++ "/" ++ b

/-- Split a character list at `'/'` (accumulator holds the current component
reversed). -/
def splitSlash : List Char → List Char → List String
  | [], cur => [String.mk cur.reverse]
  | c :: cs, cur =>
      if c = '/' then String.mk cur.reverse :: splitSlash cs []
      else splitSlash cs (c :: cur)

/-- The components of a path, empty components dropped. -/
def pathComponents (p : String) : List String :=
  (splitSlash p.data []).filter (fun c => c ≠ "")

/-- Join components back with `'/'`. -/
def joinSlash : List String → String
  | [] => ""
  | [c] => c
  | c :: c2 :: cs => c ++ "/" ++ joinSlash (c2 :: cs)

/-- All non-empty prefixes of a path, the path itself included:
`"./data"` yields `[".", "./data"]`. Used to model `os.makedirs`. -/
def pathPrefixes (p : String) : List String :=
  (List.range (pathComponents p).length).map
    (fun i => joinSlash ((pathComponents p).take (i + 1)))

/-- The proper ancestors of a relative archive-entry name:
`"Dataset/Train/a.jpg"` yields `["Dataset", "Dataset/Train"]`. These are the
directories `extractall` creates while writing the entry. -/
def ancestorDirs (name : String) : List String :=
  (List.range ((pathComponents name).length - 1)).map
    (fun i => joinSlash ((pathComponents name).take (i + 1)))

/-- The filesystem: the set of existing directories and the contents of the
existing regular files (paths are plain strings, bytes are `Nat`s). -/
structure FS where
  dirs : List String
  files : List (String × List Nat)
deriving DecidableEq, Repr

/-- Is `p` an existing regular file? -/
def FS.isFile (fs : FS) (p : String) : Bool := fs.files.any (fun e => e.1 = p)

/-- Is `p` an existing directory? -/
def FS.isDir (fs : FS) (p : String) : Bool := fs.dirs.any (fun d => d = p)

/-- `os.path.exists`. -/
def FS.path_exists (fs : FS) (p : String) : Bool := fs.isDir p || fs.isFile p

/-- Create one directory (no effect if it already exists). -/
def FS.mkdir (fs : FS) (p : String) : FS :=
  if fs.isDir p then fs else { fs with dirs := p :: fs.dirs }

/-- `os.makedirs`: create the directory and all its ancestors. -/
def FS.makedirs (fs : FS) (p : String) : FS :=
  (pathPrefixes p).foldl FS.mkdir fs

/-- `open(p, 'wb')` followed by writing `bytes`: creates or truncates `p`. -/
def FS.writeFile (fs : FS) (p : String) (bytes : List Nat) : FS :=
  { fs with files := (p, bytes) :: fs.files.filter (fun e => e.1 ≠ p) }

/-- The bytes of file `p` (empty if absent; the script only reads paths it has
checked for existence). -/
def FS.readFile (fs : FS) (p : String) : List Nat :=
  ((fs.files.find? (fun e => e.1 = p)).map (fun e => e.2)).getD []

/-- The empty filesystem. -/
def FS.empty : FS := { dirs := [], files := [] }

/-- Outcome of the one `requests.get(url, stream=True, verify=False)` call:
either the transport raises (connection error, before any file is opened), or
a response arrives with an HTTP status and a body. `requests` does not raise
on error statuses and `train.py` never checks `status_code`. -/
inductive HttpOutcome where
  | response (status : Nat) (body : List Nat)
  | exn
deriving DecidableEq, Repr

/-- Result of a Python call returning `bool`: a value, or an uncaught
exception propagating out. -/
inductive PyBool where
  | ret (b : Bool)
  | raised
deriving DecidableEq, Repr

/-- One archive entry: its relative name and its bytes. -/
abbrev ZipEntry := String × List Nat

/-- The configuration record of `DatasetHandler.__init__` (and of
`TrainModel.__init__`, which forwards the same seven arguments). -/
structure DatasetHandler where
  dataset_url : String
  dataset_download_dir : String
  dataset_file : String
  dataset_dir : String
  train_dir : String
  test_dir : String
  val_dir : String
deriving DecidableEq, Repr

/-- Output of `DatasetHandler.download_dataset`: its result, the filesystem
after the call, whether any network I/O was performed, and what was printed. -/
structure DownloadOut where
  result : PyBool
  fs : FS
  usedNetwork : Bool
  prints : List String
deriving DecidableEq, Repr

/-- `DatasetHandler.download_dataset` (train.py lines 38-59): make the download
directory, short-circuit with `True` if the archive file already exists,
otherwise perform the GET and stream the whole response body to the file,
returning `True`. The only failure is the transport raising. -/
def DatasetHandler.download_dataset (h : DatasetHandler) (fs : FS)
    (net : HttpOutcome) : DownloadOut :=
  let fs0 := if fs.path_exists h.dataset_download_dir then fs
             else fs.makedirs h.dataset_download_dir
  let file_path := pathJoin h.dataset_download_dir h.dataset_file
  if fs0.path_exists file_path then
    { result := .ret true, fs := fs0, usedNetwork := false,
      prints := ["dataset file " ++ h.dataset_file ++ " already exists at "
                 ++ file_path] }
  else
    match net with
    | .exn =>
        { result := .raised, fs := fs0, usedNetwork := true, prints := [] }
    | .response _ body =>
        { result := .ret true, fs := fs0.writeFile file_path body,
          usedNetwork := true,
          prints := ["dataset downloaded and saved to " ++ file_path] }

/-- Output of `DatasetHandler.unzip_dataset`: its result, the filesystem after
the call, whether an extraction was performed, and what was printed. -/
structure UnzipOut where
  result : PyBool
  fs : FS
  extracted : Bool
  prints : List String
deriving DecidableEq, Repr

/-- Extract one archive entry under `base`: create the ancestor directories of
the entry name, then write the entry file. -/
def FS.extractEntry (fs : FS) (base : String) (e : ZipEntry) : FS :=
  ((ancestorDirs e.1).foldl (fun f p => f.mkdir (pathJoin base p)) fs).writeFile
    (pathJoin base e.1) e.2

/-- `zip_ref.extractall(base)`: extract every entry in order. -/
def FS.extractAll (fs : FS) (base : String) (entries : List ZipEntry) : FS :=
  entries.foldl (fun f e => f.extractEntry base e) fs

/-- `DatasetHandler.unzip_dataset` (train.py lines 61-78): short-circuit with
`True` if the extraction directory already exists; report `False` if the
archive file is missing; otherwise extract every entry of the archive into the
download directory and return `True`. `decode` maps the archive bytes to its
entry list (`none` models `zipfile.BadZipFile`, uncaught). -/
def DatasetHandler.unzip_dataset (h : DatasetHandler) (fs : FS)
    (decode : List Nat → Option (List ZipEntry)) : UnzipOut :=
  let file_path := pathJoin h.dataset_download_dir h.dataset_file
  if fs.path_exists h.dataset_dir then
    { result := .ret true, fs := fs, extracted := false,
      prints := ["dataset is already downloaded and extracted at "
                 ++ h.dataset_dir] }
  else if !fs.path_exists file_path then
    { result := .ret false, fs := fs, extracted := false,
      prints := ["dataset file " ++ file_path ++ " not found after download"] }
  else
    match decode (fs.readFile file_path) with
    | none =>
        { result := .raised, fs := fs, extracted := false, prints := [] }
    | some entries =>
        { result := .ret true,
          fs := fs.extractAll h.dataset_download_dir entries,
          extracted := true,
          prints := ["dataset extracted to " ++ h.dataset_dir] }

/-- The argument record `get_image_dataset_from_directory` passes to
`tf.keras.utils.image_dataset_from_directory`; the loaded dataset is a pure
function of this record under the framework's deterministic seeded shuffle. -/
structure ImageDatasetSpec where
  directory : String
  labels : String
  color_mode : String
  seed : Nat
  batch_size : Nat
  image_size : Nat × Nat
deriving DecidableEq, Repr

/-- Channel count Keras associates to a `color_mode` string. -/
def colorChannels (mode : String) : Option Nat :=
  if mode = "grayscale" then some 1
  else if mode = "rgb" then some 3
  else if mode = "rgba" then some 4
  else none

/-- `DatasetHandler.get_image_dataset_from_directory` (train.py lines 80-98). -/
def DatasetHandler.get_image_dataset_from_directory (h : DatasetHandler)
    (dir_name : String) : ImageDatasetSpec :=
  { directory := pathJoin h.dataset_dir dir_name,
    labels := "inferred",
    color_mode := "rgb",
    seed := 42,
    batch_size := 64,
    image_size := (128, 128) }

/-- `DatasetHandler.load_split_data` (train.py lines 100-110): loads the train,
test and validation splits, in that order. -/
def DatasetHandler.load_split_data (h : DatasetHandler) :
    ImageDatasetSpec × ImageDatasetSpec × ImageDatasetSpec :=
  (h.get_image_dataset_from_directory h.train_dir,
   h.get_image_dataset_from_directory h.test_dir,
   h.get_image_dataset_from_directory h.val_dir)

/-- One Keras layer of the sequential model, with the parameters the script
passes (kernel sizes, strides, padding, activations, rates). -/
inductive Layer where
  | Input (shape : Nat × Nat × Nat)
  | Rescaling (scale : Frac)
  | Conv2D (filters : Nat) (kernel : Nat × Nat) (strides : Nat)
      (padding : String) (activation : String)
  | BatchNormalization
  | MaxPooling2D (pool_size : Nat × Nat) (strides : Nat)
  | Flatten
  | Dense (units : Nat) (activation : String)
  | Dropout (rate : Frac)
deriving DecidableEq, Repr

/-- `DeepfakeDetectorModel._build_model` (train.py lines 124-153): the layers
added to the `Sequential` model, in source order. -/
def buildModel : List Layer :=
  [ .Input (128, 128, 3),
    .Rescaling ⟨1, 127⟩,
    .Conv2D 32 (3, 3) 1 "same" "relu",
    .BatchNormalization,
    .MaxPooling2D (2, 2) 2,
    .Conv2D 64 (3, 3) 1 "same" "relu",
    .BatchNormalization,
    .MaxPooling2D (2, 2) 2,
    .Conv2D 128 (3, 3) 1 "same" "relu",
    .BatchNormalization,
    .MaxPooling2D (2, 2) 2,
    .Conv2D 256 (3, 3) 1 "same" "relu",
    .BatchNormalization,
    .MaxPooling2D (2, 2) 2,
    .Flatten,
    .Dense 512 "relu",
    .Dropout ⟨1, 2⟩,
    .Dense 256 "relu",
    .Dropout ⟨1, 2⟩,
    .Dense 128 "relu",
    .Dense 1 "sigmoid" ]

/-- The filter widths of the `Conv2D` layers of a layer list, in order. -/
def convFilters (ls : List Layer) : List Nat :=
  ls.filterMap (fun l => match l with | .Conv2D f _ _ _ _ => some f | _ => none)

/-- The unit counts of the `Dense` layers of a layer list, in order. -/
def denseUnits (ls : List Layer) : List Nat :=
  ls.filterMap (fun l => match l with | .Dense u _ => some u | _ => none)

/-- The rates of the `Dropout` layers of a layer list, in order. -/
def dropoutRates (ls : List Layer) : List Frac :=
  ls.filterMap (fun l => match l with | .Dropout r => some r | _ => none)

/-- Does each `Conv2D` of the list come immediately followed by a
`BatchNormalization` and then a 2x2/stride-2 `MaxPooling2D`? -/
def convStagesWellFormed : List Layer → Bool
  | .Conv2D _ _ _ _ _ :: rest =>
      match rest with
      | .BatchNormalization :: .MaxPooling2D (2, 2) 2 :: rest2 =>
          convStagesWellFormed rest2
      | _ => false
  | _ :: rest => convStagesWellFormed rest
  | [] => true

/-- The configuration `DeepfakeDetectorModel.compile_model` (train.py lines
155-167) passes to `model.compile`: an Adam optimizer at the given learning
rate, binary cross-entropy loss, and accuracy/precision/recall metrics. -/
structure CompileConfig where
  optimizer : String
  learning_rate : Frac
  loss : String
  metrics : List String
deriving DecidableEq, Repr

/-- `DeepfakeDetectorModel.compile_model`. -/
def DeepfakeDetectorModel.compile_model (learning_rate : Frac) : CompileConfig :=
  { optimizer := "adam",
    learning_rate := learning_rate,
    loss := "binary_crossentropy",
    metrics := ["accuracy", "precision", "recall"] }

/-- `EarlyStopping(monitor, patience, restore_best_weights)`. -/
structure EarlyStoppingCfg where
  monitor : String
  patience : Nat
  restore_best_weights : Bool
deriving DecidableEq, Repr

/-- `ReduceLROnPlateau(monitor, factor, patience, min_lr)`. -/
structure ReduceLRCfg where
  monitor : String
  factor : Frac
  patience : Nat
  min_lr : Frac
deriving DecidableEq, Repr

/-- `ModelCheckpoint(filepath, monitor, save_best_only)`; with
`save_best_only = true` Keras writes (overwriting the previous checkpoint at
the same fixed path) exactly when the monitored value improves. -/
structure ModelCheckpointCfg where
  filepath : String
  monitor : String
  save_best_only : Bool
deriving DecidableEq, Repr

/-- One callback passed to `model.fit`. -/
inductive Callback where
  | early (c : EarlyStoppingCfg)
  | reduce (c : ReduceLRCfg)
  | checkpoint (c : ModelCheckpointCfg)
deriving DecidableEq, Repr

/-- The quantity a callback monitors. -/
def Callback.monitorOf : Callback → String
  | .early c => c.monitor
  | .reduce c => c.monitor
  | .checkpoint c => c.monitor

/-- The argument record `DeepfakeDetectorModel.train_model` (train.py lines
169-189) passes to `self.model.fit`: the compiled model (architecture plus
compile configuration), the two datasets, the epoch budget and the three
callbacks. The training history returned by Keras is a pure function of this
record and of the (opaque) data, so the record stands for the call. -/
structure FitCall where
  modelArch : List Layer
  compileCfg : CompileConfig
  train_data : ImageDatasetSpec
  validation_data : ImageDatasetSpec
  epochs : Nat
  callbacks : List Callback
deriving DecidableEq, Repr

/-- `DeepfakeDetectorModel.train_model`. -/
def DeepfakeDetectorModel.train_model (arch : List Layer) (cfg : CompileConfig)
    (train_data val_data : ImageDatasetSpec) (epochs : Nat) : FitCall :=
  { modelArch := arch,
    compileCfg := cfg,
    train_data := train_data,
    validation_data := val_data,
    epochs := epochs,
    callbacks :=
      [ .early { monitor := "val_loss", patience := 10,
                 restore_best_weights := true },
        .reduce { monitor := "val_loss", factor := ⟨1, 10⟩, patience := 5,
                  min_lr := ⟨1, 10000000⟩ },
        .checkpoint { filepath := "deepfake_detector_model_best.keras",
                      monitor := "val_loss", save_best_only := true } ] }

/-- The argument record `DeepfakeDetectorModel.evaluate_model` (train.py lines
191-201) passes to `self.model.evaluate`. -/
structure EvalCall where
  test_data : ImageDatasetSpec
deriving DecidableEq, Repr

/-- `DeepfakeDetectorModel.evaluate_model`. -/
def DeepfakeDetectorModel.evaluate_model (test_data : ImageDatasetSpec) :
    EvalCall := { test_data := test_data }

/-- `DeepfakeDetectorModel.save_model` (train.py lines 203-210): `model.save`
writes the serialized model at `path` (bytes opaque, modelled as `[]`),
overwriting any existing file. -/
def DeepfakeDetectorModel.save_model (fs : FS) (path : String) : FS :=
  fs.writeFile path []

/-- `TrainModel.__init__` (train.py lines 218-231): holds the dataset handler
built from the same seven configuration arguments. -/
structure TrainModel where
  dataset_handler : DatasetHandler
deriving DecidableEq, Repr

/-- Result of `TrainModel.run_training`: the bare `return` (Python `None`), the
`(history, evaluation_metrics)` pair, or an uncaught exception. -/
inductive RunResult where
  | retNone
  | retPair (history : FitCall) (metrics : EvalCall)
  | raised
deriving DecidableEq, Repr

/-- Output of `TrainModel.run_training`: its result, the filesystem after the
call, and everything printed during it. -/
structure RunOut where
  result : RunResult
  fs : FS
  prints : List String
deriving DecidableEq, Repr

/-- `TrainModel.run_training` (train.py lines 233-256): download, unzip (each
aborting with `None` and a printed message on a `False` result), then load the
splits, build and compile the model, train, evaluate, save to
`deepfake_detector_model.keras`, and return the pair. `loadOk`, `trainOk`,
`evalOk`, `saveOk` say whether the corresponding framework call raises; no
call is wrapped in try/except, so a raise propagates out. -/
def TrainModel.run_training (tm : TrainModel) (learning_rate : Frac)
    (epochs : Nat) (fs : FS) (net : HttpOutcome)
    (decode : List Nat → Option (List ZipEntry))
    (loadOk trainOk evalOk saveOk : Bool) : RunOut :=
  let d := tm.dataset_handler.download_dataset fs net
  match d.result with
  | .raised => { result := .raised, fs := d.fs, prints := d.prints }
  | .ret false =>
      { result := .retNone, fs := d.fs,
        prints := d.prints ++ ["failed to download dataset"] }
  | .ret true =>
      let u := tm.dataset_handler.unzip_dataset d.fs decode
      match u.result with
      | .raised =>
          { result := .raised, fs := u.fs, prints := d.prints ++ u.prints }
      | .ret false =>
          { result := .retNone, fs := u.fs,
            prints := d.prints ++ u.prints ++ ["failed to unzip dataset"] }
      | .ret true =>
          if !loadOk then
            { result := .raised, fs := u.fs, prints := d.prints ++ u.prints }
          else
            match tm.dataset_handler.load_split_data with
            | (train_data, test_data, val_data) =>
              let cfg := DeepfakeDetectorModel.compile_model learning_rate
              if !trainOk then
                { result := .raised, fs := u.fs,
                  prints := d.prints ++ u.prints }
              else
                let history := DeepfakeDetectorModel.train_model buildModel cfg
                  train_data val_data epochs
                if !evalOk then
                  { result := .raised, fs := u.fs,
                    prints := d.prints ++ u.prints }
                else
                  let evaluation_metrics :=
                    DeepfakeDetectorModel.evaluate_model test_data
                  if !saveOk then
                    { result := .raised, fs := u.fs,
                      prints := d.prints ++ u.prints }
                  else
                    { result := .retPair history evaluation_metrics,
                      fs := DeepfakeDetectorModel.save_model u.fs
                        "deepfake_detector_model.keras",
                      prints := d.prints ++ u.prints }

/-- The hardcoded configuration of the `__main__` block (train.py lines
259-278). -/
def mainHandler : DatasetHandler :=
  { dataset_url := "https://www.kaggle.com/api/v1/datasets/download/manjilkarki/deepfake-and-real-images?datasetVersionNumber=1",
    dataset_download_dir := "./data",
    dataset_file := "dataset.zip",
    dataset_dir := "./data/Dataset",
    train_dir := "Train",
    test_dir := "Test",
    val_dir := "Validation" }

/-- The trainer the `__main__` block instantiates. -/
def mainTrainer : TrainModel := { dataset_handler := mainHandler }

/-- Result of the `__main__` block: normal termination with the unpacked pair,
or an uncaught exception terminating the process. -/
inductive EntryResult where
  | finished (history : FitCall) (metrics : EvalCall)
  | raised
deriving DecidableEq, Repr

/-- Output of the `__main__` block. -/
structure EntryOut where
  result : EntryResult
  fs : FS
  prints : List String
deriving DecidableEq, Repr

/-- Train.py lines 281-284 after the `run_training` call: the tuple unpacking
`history, evaluation_metrics = trainer.run_training(...)` followed by the
metrics print. Unpacking a `retPair` succeeds and the metrics are printed;
unpacking `None` raises `TypeError` (uncaught, so the process terminates
before the print); an exception from `run_training` keeps propagating. -/
def unpackAndPrint (r : RunOut) : EntryOut :=
  match r.result with
  | .retPair history evaluation_metrics =>
      { result := .finished history evaluation_metrics, fs := r.fs,
        prints := r.prints ++ ["evaluation metrics:"] }
  | .retNone => { result := .raised, fs := r.fs, prints := r.prints }
  | .raised => { result := .raised, fs := r.fs, prints := r.prints }

/-- The whole `__main__` block (train.py lines 259-284): one `run_training`
cycle on the hardcoded configuration with learning rate 0.0001 (the fraction
1/10000) and 50 epochs, then the unpacking and the metrics print. -/
def mainEntry (fs : FS) (net : HttpOutcome)
    (decode : List Nat → Option (List ZipEntry))
    (loadOk trainOk evalOk saveOk : Bool) : EntryOut :=
  unpackAndPrint
    (mainTrainer.run_training ⟨1, 10000⟩ 50 fs net decode
      loadOk trainOk evalOk saveOk)

/-- A concrete filesystem already holding the archive file, used to instantiate
the general theorems. -/
def fsWithArchive : FS :=
  { dirs := [".", "./data"], files := [("./data/dataset.zip", [80, 75])] }

/-- A concrete zip decoder: any archive decodes to one image file under
`Dataset/Train/Real`, used to instantiate the general theorems. -/
def decodeSample : List Nat → Option (List ZipEntry) :=
  fun _ => some [("Dataset/Train/Real/a.jpg", [1])]

theorem FS.files_mkdir (fs : FS) (p : String) : (fs.mkdir p).files = fs.files := by
  unfold FS.mkdir; split <;> rfl

theorem FS.isFile_mkdir (fs : FS) (p q : String) :
    (fs.mkdir p).isFile q = fs.isFile q := by
  unfold FS.isFile; rw [FS.files_mkdir]

theorem FS.isDir_mkdir_mono (fs : FS) (p q : String) (hq : fs.isDir q = true) :
    (fs.mkdir p).isDir q = true := by
  unfold FS.mkdir
  split
  · exact hq
  · simp only [FS.isDir, List.any_cons] at hq ⊢
    rw [hq, Bool.or_true]

theorem FS.path_exists_mkdir_mono (fs : FS) (p q : String)
    (hq : fs.path_exists q = true) : (fs.mkdir p).path_exists q = true := by
  unfold FS.path_exists at hq ⊢
  rcases Bool.or_eq_true_iff.mp hq with h | h
  · rw [FS.isDir_mkdir_mono fs p q h, Bool.true_or]
  · rw [FS.isFile_mkdir, h, Bool.or_true]

theorem FS.files_foldl_mkdir (l : List String) (fs : FS) :
    (l.foldl FS.mkdir fs).files = fs.files := by
  induction l generalizing fs with
  | nil => rfl
  | cons a l ih => rw [List.foldl_cons, ih, FS.files_mkdir]

theorem FS.files_makedirs (fs : FS) (p : String) :
    (fs.makedirs p).files = fs.files :=
  FS.files_foldl_mkdir _ _

theorem FS.isFile_makedirs (fs : FS) (p q : String) :
    (fs.makedirs p).isFile q = fs.isFile q := by
  unfold FS.isFile; rw [FS.files_makedirs]

theorem FS.readFile_makedirs (fs : FS) (p q : String) :
    (fs.makedirs p).readFile q = fs.readFile q := by
  unfold FS.readFile; rw [FS.files_makedirs]

theorem FS.path_exists_foldl_mkdir_mono (l : List String) (fs : FS) (q : String)
    (hq : fs.path_exists q = true) : (l.foldl FS.mkdir fs).path_exists q = true := by
  induction l generalizing fs with
  | nil => exact hq
  | cons a l ih => exact ih _ (FS.path_exists_mkdir_mono fs a q hq)

theorem FS.path_exists_makedirs_mono (fs : FS) (p q : String)
    (hq : fs.path_exists q = true) : (fs.makedirs p).path_exists q = true :=
  FS.path_exists_foldl_mkdir_mono _ _ _ hq

theorem FS.isDir_writeFile (fs : FS) (p : String) (b : List Nat) (q : String) :
    (fs.writeFile p b).isDir q = fs.isDir q := rfl

theorem FS.isFile_writeFile_self (fs : FS) (p : String) (b : List Nat) :
    (fs.writeFile p b).isFile p = true := by
  simp [FS.isFile, FS.writeFile]

theorem FS.isFile_writeFile_mono (fs : FS) (p : String) (b : List Nat)
    (q : String) (hq : fs.isFile q = true) :
    (fs.writeFile p b).isFile q = true := by
  by_cases hpq : q = p
  · subst hpq; exact FS.isFile_writeFile_self fs q b
  · simp only [FS.isFile, FS.writeFile, List.any_eq_true, decide_eq_true_eq] at hq ⊢
    rcases hq with ⟨e, he, hq⟩
    exact ⟨e, List.mem_cons_of_mem _ (List.mem_filter.mpr
      ⟨he, by simp [hq, hpq]⟩), hq⟩

theorem FS.path_exists_writeFile_mono (fs : FS) (p : String) (b : List Nat)
    (q : String) (hq : fs.path_exists q = true) :
    (fs.writeFile p b).path_exists q = true := by
  unfold FS.path_exists at hq ⊢
  rcases Bool.or_eq_true_iff.mp hq with h | h
  · rw [FS.isDir_writeFile, h, Bool.true_or]
  · rw [FS.isFile_writeFile_mono fs p b q h, Bool.or_true]

theorem FS.files_foldl_mkdir_map (l : List String) (g : String → String) (fs : FS) :
    (l.foldl (fun f p => f.mkdir (g p)) fs).files = fs.files := by
  induction l generalizing fs with
  | nil => rfl
  | cons a l ih => rw [List.foldl_cons, ih, FS.files_mkdir]

theorem FS.isFile_foldl_mkdir_map (l : List String) (g : String → String)
    (fs : FS) (q : String) :
    (l.foldl (fun f p => f.mkdir (g p)) fs).isFile q = fs.isFile q := by
  unfold FS.isFile; rw [FS.files_foldl_mkdir_map]

theorem FS.isFile_extractEntry_self (fs : FS) (base : String) (e : ZipEntry) :
    (fs.extractEntry base e).isFile (pathJoin base e.1) = true :=
  FS.isFile_writeFile_self _ _ _

theorem FS.isFile_extractEntry_mono (fs : FS) (base : String) (e : ZipEntry)
    (q : String) (hq : fs.isFile q = true) :
    (fs.extractEntry base e).isFile q = true := by
  unfold FS.extractEntry
  apply FS.isFile_writeFile_mono
  rw [FS.isFile_foldl_mkdir_map]
  exact hq

theorem FS.isFile_extractAll_mono (entries : List ZipEntry) (fs : FS)
    (base : String) (q : String) (hq : fs.isFile q = true) :
    (fs.extractAll base entries).isFile q = true := by
  induction entries generalizing fs with
  | nil => exact hq
  | cons a l ih => exact ih _ (FS.isFile_extractEntry_mono fs base a q hq)

theorem FS.isFile_extractAll_of_mem (entries : List ZipEntry) (fs : FS)
    (base : String) : ∀ e ∈ entries,
    (fs.extractAll base entries).isFile (pathJoin base e.1) = true := by
  induction entries generalizing fs with
  | nil => intro e he; cases he
  | cons a l ih =>
    intro e he
    rcases List.mem_cons.mp he with rfl | he
    · exact FS.isFile_extractAll_mono l _ base _
        (FS.isFile_extractEntry_self fs base e)
    · exact ih _ e he

/-- C5: `get_image_dataset_from_directory` always asks the framework for
inferred labels, RGB colour (3 channels, so batches of shape 128x128x3),
batch size 64, image size 128x128 and the fixed shuffling seed 42; it is a
pure function of the handler and the directory name, so repeated loads of the
same directory are deterministic; and `load_split_data` applies it to the
configured train, test and validation directories. -/
theorem image_dataset_loading_config (h : DatasetHandler) (dir_name : String) :
    h.get_image_dataset_from_directory dir_name =
      { directory := pathJoin h.dataset_dir dir_name, labels := "inferred",
        color_mode := "rgb", seed := 42, batch_size := 64,
        image_size := (128, 128) }
    ∧ colorChannels (h.get_image_dataset_from_directory dir_name).color_mode = some 3
    ∧ h.load_split_data =
        (h.get_image_dataset_from_directory h.train_dir,
         h.get_image_dataset_from_directory h.test_dir,
         h.get_image_dataset_from_directory h.val_dir) :=
  ⟨rfl, show colorChannels "rgb" = some 3 by decide, rfl⟩

/-- C6: `_build_model` builds exactly the fixed sequential stack: a 128x128x3
input, a rescaling of the pixel intensities, four Conv2D plus
BatchNormalization plus 2x2 MaxPooling2D stages of widths 32, 64, 128, 256, a
Flatten, Dense layers of widths 512, 256, 128 with 0.5 dropout after the
first two, and a final single-unit sigmoid output — 21 layers and nothing
else. -/
theorem build_model_architecture :
    buildModel.length = 21
    ∧ buildModel.head? = some (.Input (128, 128, 3))
    ∧ buildModel[1]? = some (.Rescaling ⟨1, 127⟩)
    ∧ convFilters buildModel = [32, 64, 128, 256]
    ∧ convStagesWellFormed buildModel = true
    ∧ denseUnits buildModel = [512, 256, 128, 1]
    ∧ dropoutRates buildModel = [⟨1, 2⟩, ⟨1, 2⟩]
    ∧ buildModel[14]? = some .Flatten
    ∧ buildModel[15]? = some (.Dense 512 "relu")
    ∧ buildModel[16]? = some (.Dropout ⟨1, 2⟩)
    ∧ buildModel[17]? = some (.Dense 256 "relu")
    ∧ buildModel[18]? = some (.Dropout ⟨1, 2⟩)
    ∧ buildModel[19]? = some (.Dense 128 "relu")
    ∧ buildModel.getLast? = some (.Dense 1 "sigmoid")
    ∧ buildModel =
      [ .Input (128, 128, 3), .Rescaling ⟨1, 127⟩,
        .Conv2D 32 (3, 3) 1 "same" "relu", .BatchNormalization,
        .MaxPooling2D (2, 2) 2,
        .Conv2D 64 (3, 3) 1 "same" "relu", .BatchNormalization,
        .MaxPooling2D (2, 2) 2,
        .Conv2D 128 (3, 3) 1 "same" "relu", .BatchNormalization,
        .MaxPooling2D (2, 2) 2,
        .Conv2D 256 (3, 3) 1 "same" "relu", .BatchNormalization,
        .MaxPooling2D (2, 2) 2,
        .Flatten, .Dense 512 "relu", .Dropout ⟨1, 2⟩, .Dense 256 "relu",
        .Dropout ⟨1, 2⟩, .Dense 128 "relu", .Dense 1 "sigmoid" ] := by
  decide

/-- C7: `train_model` hands `fit` exactly three callbacks, each monitoring
`val_loss`: early stopping with patience 10 restoring the best-observed
weights, learning-rate reduction by factor 1/10 with patience 5 and floor
1/10000000, and a best-only checkpoint at the fixed path
`deepfake_detector_model_best.keras`; the given data and epoch budget pass
through unchanged. -/
theorem train_model_callbacks (arch : List Layer) (cfg : CompileConfig)
    (td vd : ImageDatasetSpec) (epochs : Nat) :
    (DeepfakeDetectorModel.train_model arch cfg td vd epochs).callbacks =
      [ .early { monitor := "val_loss", patience := 10,
                 restore_best_weights := true },
        .reduce { monitor := "val_loss", factor := ⟨1, 10⟩, patience := 5,
                  min_lr := ⟨1, 10000000⟩ },
        .checkpoint { filepath := "deepfake_detector_model_best.keras",
                      monitor := "val_loss", save_best_only := true } ]
    ∧ ((DeepfakeDetectorModel.train_model arch cfg td vd epochs).callbacks.map
        Callback.monitorOf) = ["val_loss", "val_loss", "val_loss"]
    ∧ (DeepfakeDetectorModel.train_model arch cfg td vd epochs).epochs = epochs
    ∧ (DeepfakeDetectorModel.train_model arch cfg td vd epochs).train_data = td
    ∧ (DeepfakeDetectorModel.train_model arch cfg td vd epochs).validation_data
        = vd
    ∧ (DeepfakeDetectorModel.train_model arch cfg td vd epochs).modelArch = arch
    ∧ (DeepfakeDetectorModel.train_model arch cfg td vd epochs).compileCfg = cfg :=
  ⟨rfl, rfl, rfl, rfl, rfl, rfl, rfl⟩

/-- C10: the `__main__` tuple unpacking applied to the `None` result of an
aborted `run_training` raises: the entry outcome is an uncaught error, the
filesystem is untouched, and the final metrics print never happens. -/
theorem entry_unpack_none_raises (fs : FS) (ps : List String) :
    unpackAndPrint { result := .retNone, fs := fs, prints := ps } =
      { result := .raised, fs := fs, prints := ps } := rfl

/-- C4 (code bug): with the archive absent, an HTTP error response (here
status 404 with body `[60, 104]`) is streamed to disk and `download_dataset`
still returns `True` — the error response body is persisted as the archive
file — because the script never inspects the status; only a transport
exception avoids the success report (it propagates). -/
theorem download_dataset_persists_error_response :
    (mainHandler.download_dataset FS.empty (.response 404 [60, 104])).result
      = .ret true
    ∧ (mainHandler.download_dataset FS.empty (.response 404 [60, 104])).usedNetwork
      = true
    ∧ (mainHandler.download_dataset FS.empty (.response 404 [60, 104])).fs.readFile
        (pathJoin "./data" "dataset.zip") = [60, 104]
    ∧ (mainHandler.download_dataset FS.empty HttpOutcome.exn).result = .raised := by
  decide

/-- C2: with the archive already present at `{download_dir}/{dataset_file}`,
`download_dataset` reports success without any network I/O and leaves every
file (in particular the archive) unchanged; consequently a second call again
reports success without network I/O and the files are still unchanged. -/
theorem download_dataset_cached_idempotent (h : DatasetHandler) (fs : FS)
    (net net2 : HttpOutcome)
    (hex : fs.path_exists (pathJoin h.dataset_download_dir h.dataset_file)
      = true) :
    (h.download_dataset fs net).result = .ret true
    ∧ (h.download_dataset fs net).usedNetwork = false
    ∧ (h.download_dataset fs net).fs.files = fs.files
    ∧ (h.download_dataset (h.download_dataset fs net).fs net2).result
        = .ret true
    ∧ (h.download_dataset (h.download_dataset fs net).fs net2).usedNetwork
        = false
    ∧ (h.download_dataset (h.download_dataset fs net).fs net2).fs.files
        = fs.files := by
  have key : ∀ (fs' : FS) (n : HttpOutcome),
      fs'.path_exists (pathJoin h.dataset_download_dir h.dataset_file) = true →
      (h.download_dataset fs' n).result = .ret true
      ∧ (h.download_dataset fs' n).usedNetwork = false
      ∧ (h.download_dataset fs' n).fs.files = fs'.files
      ∧ (h.download_dataset fs' n).fs.path_exists
          (pathJoin h.dataset_download_dir h.dataset_file) = true := by
    intro fs' n hx
    cases hdir : fs'.path_exists h.dataset_download_dir
    · have hx2 : (fs'.makedirs h.dataset_download_dir).path_exists
          (pathJoin h.dataset_download_dir h.dataset_file) = true :=
        FS.path_exists_makedirs_mono _ _ _ hx
      refine ⟨?_, ?_, ?_, ?_⟩ <;>
        simp [DatasetHandler.download_dataset, hdir, hx2, FS.files_makedirs]
    · refine ⟨?_, ?_, ?_, ?_⟩ <;>
        simp [DatasetHandler.download_dataset, hdir, hx]
  obtain ⟨r1, n1, f1, p1⟩ := key fs net hex
  obtain ⟨r2, n2, f2, _⟩ := key _ net2 p1
  exact ⟨r1, n1, f1, r2, n2, f2.trans f1⟩

/-- Instantiation of the cached-download theorem: the archive is present, both
calls report success with no network I/O (even with a transport that would
fail), and the files are untouched. -/
theorem download_dataset_cached_idempotent_witness :
    fsWithArchive.path_exists
      (pathJoin mainHandler.dataset_download_dir mainHandler.dataset_file)
      = true
    ∧ (mainHandler.download_dataset fsWithArchive .exn).result = .ret true
    ∧ (mainHandler.download_dataset fsWithArchive .exn).usedNetwork = false
    ∧ (mainHandler.download_dataset
        (mainHandler.download_dataset fsWithArchive .exn).fs .exn).usedNetwork
        = false
    ∧ (mainHandler.download_dataset
        (mainHandler.download_dataset fsWithArchive .exn).fs .exn).fs.files
        = fsWithArchive.files := by
  have k := download_dataset_cached_idempotent mainHandler fsWithArchive
    .exn .exn (by decide)
  exact ⟨by decide, k.1, k.2.1, k.2.2.2.2.1, k.2.2.2.2.2⟩

/-- C3: `unzip_dataset` first checks the extraction directory and, when it
exists, returns `True` without extracting and without touching the
filesystem; it returns `False` exactly when the extraction directory and the
archive file are both absent; when the extraction directory is absent and the
archive decodes, it extracts every entry of the archive into the download
directory and returns `True`; and once the extraction has produced the
extraction directory, a second call performs no extraction. -/
theorem unzip_dataset_spec (h : DatasetHandler) (fs : FS)
    (decode : List Nat → Option (List ZipEntry)) :
    (fs.path_exists h.dataset_dir = true →
      (h.unzip_dataset fs decode).result = .ret true
      ∧ (h.unzip_dataset fs decode).extracted = false
      ∧ (h.unzip_dataset fs decode).fs = fs)
    ∧ ((h.unzip_dataset fs decode).result = .ret false ↔
        (fs.path_exists h.dataset_dir = false
         ∧ fs.path_exists (pathJoin h.dataset_download_dir h.dataset_file)
             = false))
    ∧ (∀ entries, fs.path_exists h.dataset_dir = false →
        fs.path_exists (pathJoin h.dataset_download_dir h.dataset_file)
          = true →
        decode (fs.readFile (pathJoin h.dataset_download_dir h.dataset_file))
          = some entries →
        (h.unzip_dataset fs decode).result = .ret true
        ∧ (h.unzip_dataset fs decode).extracted = true
        ∧ (h.unzip_dataset fs decode).fs
            = fs.extractAll h.dataset_download_dir entries
        ∧ ∀ e ∈ entries, (h.unzip_dataset fs decode).fs.isFile
            (pathJoin h.dataset_download_dir e.1) = true)
    ∧ ((h.unzip_dataset fs decode).fs.path_exists h.dataset_dir = true →
        (h.unzip_dataset (h.unzip_dataset fs decode).fs decode).result
          = .ret true
        ∧ (h.unzip_dataset (h.unzip_dataset fs decode).fs decode).extracted
          = false) := by
  have short : ∀ (fs' : FS), fs'.path_exists h.dataset_dir = true →
      (h.unzip_dataset fs' decode).result = .ret true
      ∧ (h.unzip_dataset fs' decode).extracted = false
      ∧ (h.unzip_dataset fs' decode).fs = fs' := by
    intro fs' hdir
    refine ⟨?_, ?_, ?_⟩ <;> simp [DatasetHandler.unzip_dataset, hdir]
  refine ⟨short fs, ?_, ?_, fun hdir2 => ⟨(short _ hdir2).1, (short _ hdir2).2.1⟩⟩
  · cases hdir : fs.path_exists h.dataset_dir
    · cases hfile : fs.path_exists
          (pathJoin h.dataset_download_dir h.dataset_file)
      · simp [DatasetHandler.unzip_dataset, hdir, hfile]
      · cases hdec : decode (fs.readFile
            (pathJoin h.dataset_download_dir h.dataset_file)) <;>
          simp [DatasetHandler.unzip_dataset, hdir, hfile, hdec]
    · simp [DatasetHandler.unzip_dataset, hdir]
  · intro entries hdir hfile hdec
    refine ⟨?_, ?_, ?_, ?_⟩
    · simp [DatasetHandler.unzip_dataset, hdir, hfile, hdec]
    · simp [DatasetHandler.unzip_dataset, hdir, hfile, hdec]
    · simp [DatasetHandler.unzip_dataset, hdir, hfile, hdec]
    · intro e he
      have hfs : (h.unzip_dataset fs decode).fs
          = fs.extractAll h.dataset_download_dir entries := by
        simp [DatasetHandler.unzip_dataset, hdir, hfile, hdec]
      rw [hfs]
      exact FS.isFile_extractAll_of_mem entries fs h.dataset_download_dir e he

/-- Instantiation of the unzip theorem: the archive is present, the extraction
directory absent; the call extracts (creating the extraction directory from
the entry's ancestors) and returns `True`, and the second call does not
extract. -/
theorem unzip_dataset_spec_witness :
    fsWithArchive.path_exists mainHandler.dataset_dir = false
    ∧ fsWithArchive.path_exists
        (pathJoin mainHandler.dataset_download_dir mainHandler.dataset_file)
        = true
    ∧ (mainHandler.unzip_dataset fsWithArchive decodeSample).result = .ret true
    ∧ (mainHandler.unzip_dataset fsWithArchive decodeSample).extracted = true
    ∧ (mainHandler.unzip_dataset fsWithArchive decodeSample).fs.isFile
        (pathJoin "./data" "Dataset/Train/Real/a.jpg") = true
    ∧ (mainHandler.unzip_dataset
        (mainHandler.unzip_dataset fsWithArchive decodeSample).fs
        decodeSample).result = .ret true
    ∧ (mainHandler.unzip_dataset
        (mainHandler.unzip_dataset fsWithArchive decodeSample).fs
        decodeSample).extracted = false := by
  have k := unzip_dataset_spec mainHandler fsWithArchive decodeSample
  have k3 := k.2.2.1 [("Dataset/Train/Real/a.jpg", [1])]
    (by decide) (by decide) (by decide)
  have k4 := k.2.2.2 (by decide)
  exact ⟨by decide, by decide, k3.1, k3.2.1,
    k3.2.2.2 ("Dataset/Train/Real/a.jpg", [1]) (by decide), k4.1, k4.2⟩

/-- C1: `run_training` returns `None` — with a failure message among its
prints — exactly when the download call reports `False`, or the download call
reports `True` and the unzip call reports `False`; and when both report
`True` and no framework call raises, it loads the three splits, trains the
model built by `_build_model` and compiled at the given learning rate against
the train/validation splits, evaluates on the test split, saves the model to
`deepfake_detector_model.keras`, and returns the
`(history, evaluation_metrics)` pair. -/
theorem run_training_none_iff_soft_failure (tm : TrainModel) (lr : Frac)
    (epochs : Nat) (fs : FS) (net : HttpOutcome)
    (decode : List Nat → Option (List ZipEntry))
    (loadOk trainOk evalOk saveOk : Bool) :
    ((tm.run_training lr epochs fs net decode loadOk trainOk evalOk
        saveOk).result = .retNone ↔
      ((tm.dataset_handler.download_dataset fs net).result = .ret false
       ∨ ((tm.dataset_handler.download_dataset fs net).result = .ret true
          ∧ (tm.dataset_handler.unzip_dataset
              (tm.dataset_handler.download_dataset fs net).fs decode).result
              = .ret false)))
    ∧ ((tm.run_training lr epochs fs net decode loadOk trainOk evalOk
        saveOk).result = .retNone →
        "failed to download dataset" ∈ (tm.run_training lr epochs fs net decode
          loadOk trainOk evalOk saveOk).prints
        ∨ "failed to unzip dataset" ∈ (tm.run_training lr epochs fs net decode
          loadOk trainOk evalOk saveOk).prints)
    ∧ ((tm.dataset_handler.download_dataset fs net).result = .ret true →
        (tm.dataset_handler.unzip_dataset
          (tm.dataset_handler.download_dataset fs net).fs decode).result
          = .ret true →
        loadOk = true → trainOk = true → evalOk = true → saveOk = true →
        (tm.run_training lr epochs fs net decode loadOk trainOk evalOk
          saveOk).result =
          .retPair
            (DeepfakeDetectorModel.train_model buildModel
              (DeepfakeDetectorModel.compile_model lr)
              (tm.dataset_handler.get_image_dataset_from_directory
                tm.dataset_handler.train_dir)
              (tm.dataset_handler.get_image_dataset_from_directory
                tm.dataset_handler.val_dir)
              epochs)
            (DeepfakeDetectorModel.evaluate_model
              (tm.dataset_handler.get_image_dataset_from_directory
                tm.dataset_handler.test_dir))
        ∧ (tm.run_training lr epochs fs net decode loadOk trainOk evalOk
            saveOk).fs.isFile "deepfake_detector_model.keras" = true) := by
  refine ⟨?_, ?_, ?_⟩
  · cases hd : (tm.dataset_handler.download_dataset fs net).result with
    | raised => simp [TrainModel.run_training, hd]
    | ret b =>
      cases b with
      | false => simp [TrainModel.run_training, hd]
      | true =>
        cases hu : (tm.dataset_handler.unzip_dataset
            (tm.dataset_handler.download_dataset fs net).fs decode).result with
        | raised => simp [TrainModel.run_training, hd, hu]
        | ret c =>
          cases c with
          | false => simp [TrainModel.run_training, hd, hu]
          | true =>
            cases loadOk <;> cases trainOk <;> cases evalOk <;> cases saveOk <;>
              simp [TrainModel.run_training, hd, hu,
                DatasetHandler.load_split_data]
  · intro hnone
    cases hd : (tm.dataset_handler.download_dataset fs net).result with
    | raised => simp [TrainModel.run_training, hd] at hnone
    | ret b =>
      cases b with
      | false => simp [TrainModel.run_training, hd]
      | true =>
        cases hu : (tm.dataset_handler.unzip_dataset
            (tm.dataset_handler.download_dataset fs net).fs decode).result with
        | raised => simp [TrainModel.run_training, hd, hu] at hnone
        | ret c =>
          cases c with
          | false => simp [TrainModel.run_training, hd, hu]
          | true =>
            cases loadOk <;> cases trainOk <;> cases evalOk <;> cases saveOk <;>
              simp [TrainModel.run_training, hd, hu,
                DatasetHandler.load_split_data] at hnone
  · intro hd hu hl ht he hs
    subst hl; subst ht; subst he; subst hs
    constructor
    · simp [TrainModel.run_training, hd, hu, DatasetHandler.load_split_data]
    · have hfs : (tm.run_training lr epochs fs net decode true true true
          true).fs = DeepfakeDetectorModel.save_model
            (tm.dataset_handler.unzip_dataset
              (tm.dataset_handler.download_dataset fs net).fs decode).fs
            "deepfake_detector_model.keras" := by
        simp [TrainModel.run_training, hd, hu, DatasetHandler.load_split_data]
      rw [hfs]
      exact FS.isFile_writeFile_self _ _ _

/-- Instantiation of the `run_training` theorem on the hardcoded trainer with
a fresh filesystem, a succeeding transfer and a decodable archive: the result
is the `(history, evaluation_metrics)` pair and the model file is saved. -/
theorem run_training_none_iff_soft_failure_witness :
    (mainTrainer.dataset_handler.download_dataset FS.empty
      (.response 200 [80, 75])).result = .ret true
    ∧ (mainTrainer.dataset_handler.unzip_dataset
        (mainTrainer.dataset_handler.download_dataset FS.empty
          (.response 200 [80, 75])).fs decodeSample).result = .ret true
    ∧ (mainTrainer.run_training ⟨1, 10000⟩ 50 FS.empty (.response 200 [80, 75])
        decodeSample true true true true).result =
        .retPair
          (DeepfakeDetectorModel.train_model buildModel
            (DeepfakeDetectorModel.compile_model ⟨1, 10000⟩)
            (mainHandler.get_image_dataset_from_directory "Train")
            (mainHandler.get_image_dataset_from_directory "Validation") 50)
          (DeepfakeDetectorModel.evaluate_model
            (mainHandler.get_image_dataset_from_directory "Test"))
    ∧ (mainTrainer.run_training ⟨1, 10000⟩ 50 FS.empty (.response 200 [80, 75])
        decodeSample true true true true).fs.isFile
        "deepfake_detector_model.keras" = true
    ∧ ¬ (mainTrainer.run_training ⟨1, 10000⟩ 50 FS.empty
        (.response 200 [80, 75]) decodeSample true true true true).result
        = .retNone := by
  have k := run_training_none_iff_soft_failure mainTrainer ⟨1, 10000⟩ 50
    FS.empty (.response 200 [80, 75]) decodeSample true true true true
  have k3 := k.2.2 (by decide) (by decide) rfl rfl rfl rfl
  refine ⟨by decide, by decide, k3.1, k3.2, ?_⟩
  intro hn
  rcases k.1.mp hn with hbad | ⟨_, hbad⟩ <;> revert hbad <;> decide

/-- C8: `run_training` wraps no framework call in error recovery: with the
download and unzip steps reporting success, a raise in split loading, in
training, in evaluation or in saving makes the whole call raise — the
failure propagates out uncaught; only the two dataset steps are handled as
boolean soft failures. -/
theorem run_training_propagates_stage_failures (tm : TrainModel) (lr : Frac)
    (epochs : Nat) (fs : FS) (net : HttpOutcome)
    (decode : List Nat → Option (List ZipEntry)) (trainOk evalOk saveOk : Bool)
    (hd : (tm.dataset_handler.download_dataset fs net).result = .ret true)
    (hu : (tm.dataset_handler.unzip_dataset
        (tm.dataset_handler.download_dataset fs net).fs decode).result
        = .ret true) :
    (tm.run_training lr epochs fs net decode false trainOk evalOk
      saveOk).result = .raised
    ∧ (tm.run_training lr epochs fs net decode true false evalOk
        saveOk).result = .raised
    ∧ (tm.run_training lr epochs fs net decode true true false
        saveOk).result = .raised
    ∧ (tm.run_training lr epochs fs net decode true true true
        false).result = .raised := by
  refine ⟨?_, ?_, ?_, ?_⟩ <;>
    simp [TrainModel.run_training, hd, hu, DatasetHandler.load_split_data]

/-- Instantiation of the propagation theorem on the hardcoded trainer with the
archive already present: a raise in split loading, and likewise one in
saving, aborts the run with an uncaught failure. -/
theorem run_training_propagates_stage_failures_witness :
    (mainTrainer.run_training ⟨1, 10000⟩ 50 fsWithArchive .exn decodeSample
      false true true true).result = .raised
    ∧ (mainTrainer.run_training ⟨1, 10000⟩ 50 fsWithArchive .exn decodeSample
        true true true false).result = .raised := by
  have k := run_training_propagates_stage_failures mainTrainer ⟨1, 10000⟩ 50
    fsWithArchive .exn decodeSample true true true (by decide) (by decide)
  exact ⟨k.1, k.2.2.2⟩

/-- C9: the `__main__` block runs exactly one acquisition, training,
evaluation and save cycle through `run_training` on the hardcoded
configuration — the Kaggle dataset URL, the `./data` paths, learning rate
0.0001 (the fraction 1/10000) and 50 epochs — and, when every step succeeds,
the saved model file exists and the evaluation-metrics print is the last
thing written to standard output. -/
theorem main_entry_hardcoded_cycle (fs : FS) (net : HttpOutcome)
    (decode : List Nat → Option (List ZipEntry))
    (hd : (mainHandler.download_dataset fs net).result = .ret true)
    (hu : (mainHandler.unzip_dataset
        (mainHandler.download_dataset fs net).fs decode).result = .ret true) :
    mainHandler.dataset_url =
      "https://www.kaggle.com/api/v1/datasets/download/manjilkarki/deepfake-and-real-images?datasetVersionNumber=1"
    ∧ mainHandler.dataset_download_dir = "./data"
    ∧ mainHandler.dataset_file = "dataset.zip"
    ∧ mainHandler.dataset_dir = "./data/Dataset"
    ∧ mainTrainer.dataset_handler = mainHandler
    ∧ (mainEntry fs net decode true true true true).result =
        .finished
          (DeepfakeDetectorModel.train_model buildModel
            (DeepfakeDetectorModel.compile_model ⟨1, 10000⟩)
            (mainHandler.get_image_dataset_from_directory "Train")
            (mainHandler.get_image_dataset_from_directory "Validation") 50)
          (DeepfakeDetectorModel.evaluate_model
            (mainHandler.get_image_dataset_from_directory "Test"))
    ∧ (mainEntry fs net decode true true true true).prints.getLast?
        = some "evaluation metrics:"
    ∧ (mainEntry fs net decode true true true true).fs.isFile
        "deepfake_detector_model.keras" = true := by
  refine ⟨rfl, rfl, rfl, rfl, rfl, ?_, ?_, ?_⟩
  · simp only [mainEntry, mainTrainer, unpackAndPrint, TrainModel.run_training,
      hd, hu, DatasetHandler.load_split_data, Bool.not_true]
    rfl
  · simp only [mainEntry, mainTrainer, unpackAndPrint, TrainModel.run_training,
      hd, hu, DatasetHandler.load_split_data, Bool.not_true]
    simp [List.getLast?_append_cons]
  · have hfs : (mainEntry fs net decode true true true true).fs
        = DeepfakeDetectorModel.save_model
          (mainHandler.unzip_dataset
            (mainHandler.download_dataset fs net).fs decode).fs
          "deepfake_detector_model.keras" := by
      simp [mainEntry, mainTrainer, unpackAndPrint, TrainModel.run_training,
        hd, hu, DatasetHandler.load_split_data]
    rw [hfs]
    exact FS.isFile_writeFile_self _ _ _

/-- Instantiation of the entry-point theorem on a fresh filesystem with a
succeeding transfer and a decodable archive: the run finishes, the metrics
print comes last, and the saved model file exists. -/
theorem main_entry_hardcoded_cycle_witness :
    (mainEntry FS.empty (.response 200 [80, 75]) decodeSample
      true true true true).result =
      .finished
        (DeepfakeDetectorModel.train_model buildModel
          (DeepfakeDetectorModel.compile_model ⟨1, 10000⟩)
          (mainHandler.get_image_dataset_from_directory "Train")
          (mainHandler.get_image_dataset_from_directory "Validation") 50)
        (DeepfakeDetectorModel.evaluate_model
          (mainHandler.get_image_dataset_from_directory "Test"))
    ∧ (mainEntry FS.empty (.response 200 [80, 75]) decodeSample
        true true true true).prints.getLast? = some "evaluation metrics:"
    ∧ (mainEntry FS.empty (.response 200 [80, 75]) decodeSample
        true true true true).fs.isFile "deepfake_detector_model.keras"
        = true := by
  have k := main_entry_hardcoded_cycle FS.empty (.response 200 [80, 75])
    decodeSample (by decide) (by decide)
  exact ⟨k.2.2.2.2.2.1, k.2.2.2.2.2.2.1, k.2.2.2.2.2.2.2⟩
